import Mathlib

/-!
# Verification of the Schnorr identification / signature demo

Shallow embedding of `src/schnorr.py`. Python methods that read or write
instance fields are modelled by explicit state passing: a method that can
mutate its object returns the post-state next to its Python return value.
Calls that can raise a Python runtime exception return `Except PyError`.
The call `random.randint(1, p - 2)` is modelled by an extra input argument
(the drawn value), and the SHA-256 challenge derivation
`int(sha256(str(R).encode() + message.encode()).hexdigest(), 16)` is
modelled by an abstract deterministic function argument `H : Nat → String → Nat`
applied to the commitment value and the message.
-/

/-- Runtime errors a modelled call can raise. `typeError` stands for Python's
built-in `TypeError` (e.g. arithmetic involving `None`); `protocolStateError`
stands for the `ProtocolStateError` error kind that the design documents name
(no code in `src/schnorr.py` defines or raises it). -/
inductive PyError where
  | typeError : PyError
  | protocolStateError : PyError
  deriving DecidableEq

/-- Class `SchnorrProtocol` of `src/schnorr.py`: stores the prime modulus `p`
and the generator `g`. -/
structure SchnorrProtocol where
  p : Nat
  g : Nat
  deriving DecidableEq

/-- `SchnorrProtocol.__init__` viewed as a fallible constructor: the Python
constructor only assigns `self.p` and `self.g` and performs no validation, so
it succeeds on every input. -/
def SchnorrProtocol.init (p g : Nat) : Except PyError SchnorrProtocol :=
  Except.ok ⟨p, g⟩

/-- Class `Prover` of `src/schnorr.py`: group parameters, secret `x`, public
key `y`, and the nonce field `r` (`None` until `commit` runs). -/
structure Prover where
  protocol : SchnorrProtocol
  x : Nat
  y : Nat
  r : Option Nat
  deriving DecidableEq

/-- `Prover.__init__`: stores the secret and derives `y = g ^ secret mod p`;
`self.r` starts as `None`. -/
def Prover.init (protocol : SchnorrProtocol) (secret : Nat) : Prover :=
  { protocol := protocol, x := secret, y := protocol.g ^ secret % protocol.p, r := none }

/-- `Prover.commit`: `rnd` models the value drawn by
`random.randint(1, p - 2)`; it is stored in `self.r` and the commitment
`t = g ^ r mod p` is returned next to the post-state. -/
def Prover.commit (pr : Prover) (rnd : Nat) : Prover × Nat :=
  ({ pr with r := some rnd }, pr.protocol.g ^ rnd % pr.protocol.p)

/-- `Prover.respond`: computes `s = (r + challenge * x) mod (p - 1)`. When
`self.r` is still `None`, the Python expression `self.r + challenge * self.x`
raises `TypeError`. The method assigns no field, so the post-state it returns
is the input state. -/
def Prover.respond (pr : Prover) (challenge : Nat) : Except PyError (Prover × Nat) :=
  match pr.r with
  | none => Except.error PyError.typeError
  | some r => Except.ok (pr, (r + challenge * pr.x) % (pr.protocol.p - 1))

/-- Class `Verifier` of `src/schnorr.py`: group parameters, the prover's
public key `y`, and the challenge field `c` (`None` until `challenge` runs). -/
structure Verifier where
  protocol : SchnorrProtocol
  y : Nat
  c : Option Nat
  deriving DecidableEq

/-- `Verifier.__init__`. -/
def Verifier.init (protocol : SchnorrProtocol) (prover_public_key : Nat) : Verifier :=
  { protocol := protocol, y := prover_public_key, c := none }

/-- `Verifier.challenge`: `rnd` models the value drawn by
`random.randint(1, p - 2)`; it is stored in `self.c` and returned. -/
def Verifier.challenge (v : Verifier) (rnd : Nat) : Verifier × Nat :=
  ({ v with c := some rnd }, rnd)

/-- `Verifier.verify`: checks `g ^ s == t * y ^ c mod p` against the stored
challenge. When `self.c` is still `None`, `pow(self.y, self.c, p)` raises
`TypeError`. The method assigns no field, so the post-state it returns is the
input state. -/
def Verifier.verify (v : Verifier) (commitment response : Nat) :
    Except PyError (Verifier × Bool) :=
  match v.c with
  | none => Except.error PyError.typeError
  | some c =>
    let lhs := v.protocol.g ^ response % v.protocol.p
    let rhs := (commitment * (v.y ^ c % v.protocol.p)) % v.protocol.p
    Except.ok (v, lhs == rhs)

/-- Function `schnorr_signature` of `src/schnorr.py` (Fiat-Shamir):
`k` models the value drawn by `random.randint(1, p - 2)` and `H` models the
SHA-256 challenge derivation applied to the commitment and the message. -/
def schnorr_signature (H : Nat → String → Nat) (message : String) (private_key : Nat)
    (protocol : SchnorrProtocol) (k : Nat) : Nat × Nat :=
  let R := protocol.g ^ k % protocol.p
  let e := H R message % (protocol.p - 1)
  let s := (k + e * private_key) % (protocol.p - 1)
  (s, e)

/-- Function `verify_signature` of `src/schnorr.py`: reconstructs
`R = g ^ s * y ^ (p - 1 - e) mod p` and recomputes the hash challenge. -/
def verify_signature (H : Nat → String → Nat) (message : String) (signature : Nat × Nat)
    (public_key : Nat) (protocol : SchnorrProtocol) : Bool :=
  let s := signature.1
  let e := signature.2
  let g_s := protocol.g ^ s % protocol.p
  let y_inv := public_key ^ (protocol.p - 1 - e) % protocol.p
  let R := (g_s * y_inv) % protocol.p
  let e_check := H R message % (protocol.p - 1)
  e == e_check

/-! ## Helper lemmas -/

/-- In any monoid, an exponent can be reduced modulo a period of the base. -/
theorem schnorr_pow_mod_cycle {M : Type} [Monoid M] (a : M) (d n : Nat) (h : a ^ d = 1) :
    a ^ (n % d) = a ^ n := by
  conv_rhs => rw [← Nat.div_add_mod n d]
  rw [pow_add, pow_mul, h, one_pow, one_mul]

/-- Fermat reduction: in `ZMod p` with `p` prime, exponents of a nonzero base
can be reduced modulo `p - 1`. -/
theorem schnorr_zmod_pow_reduce {p : Nat} (hp : p.Prime) (a : ZMod p) (ha : a ≠ 0)
    (n : Nat) : a ^ (n % (p - 1)) = a ^ n := by
  haveI : Fact p.Prime := ⟨hp⟩
  exact schnorr_pow_mod_cycle a (p - 1) n (ZMod.pow_card_sub_one_eq_one ha)

/-- The verification equation of the interactive protocol holds on an honest
transcript, as an identity of the reduced natural numbers the code computes. -/
theorem schnorr_verify_equation (p g x r c : Nat) (hp : p.Prime) (hg : ¬ p ∣ g) :
    g ^ ((r + c * x) % (p - 1)) % p = ((g ^ r % p) * ((g ^ x % p) ^ c % p)) % p := by
  haveI : Fact p.Prime := ⟨hp⟩
  have hG : (g : ZMod p) ≠ 0 := by
    rw [Ne, ZMod.natCast_zmod_eq_zero_iff_dvd]
    exact hg
  rw [← ZMod.natCast_eq_natCast_iff']
  push_cast [ZMod.natCast_mod]
  rw [schnorr_zmod_pow_reduce hp _ hG, pow_add, mul_comm c x, pow_mul]

/-- A remainder modulo `p - 1` is at most `p - 2` once `3 ≤ p`. -/
theorem schnorr_mod_le_sub_two (p a : Nat) (hp3 : 3 ≤ p) : a % (p - 1) ≤ p - 2 := by
  have h2 := Nat.mod_lt a (show 0 < p - 1 by omega)
  generalize a % (p - 1) = b at h2 ⊢
  omega

/-! ## Claims -/

/-- C1: completeness of the interactive protocol. For every prime modulus
`p ≥ 3` with generator `g` (in particular `p` does not divide `g`), every
secret `x`, every nonce `r` in `[1, p-2]` and every challenge `c` in
`[1, p-2]`, the honestly generated transcript — commitment from
`Prover.commit`, response from `Prover.respond` — makes `Verifier.verify`
return `True`. -/
theorem C1_interactive_completeness (p g x r c : Nat) (hp : p.Prime) (hp3 : 3 ≤ p)
    (hg : ¬ p ∣ g) (hr1 : 1 ≤ r) (hr2 : r ≤ p - 2) (hc1 : 1 ≤ c) (hc2 : c ≤ p - 2) :
    ∃ s : Nat,
      (((Prover.init ⟨p, g⟩ x).commit r).1).respond c =
        Except.ok (((Prover.init ⟨p, g⟩ x).commit r).1, s) ∧
      (((Verifier.init ⟨p, g⟩ ((Prover.init ⟨p, g⟩ x).y)).challenge c).1).verify
          (((Prover.init ⟨p, g⟩ x).commit r).2) s =
        Except.ok ((((Verifier.init ⟨p, g⟩ ((Prover.init ⟨p, g⟩ x).y)).challenge c).1),
          true) := by
  refine ⟨(r + c * x) % (p - 1), rfl, ?_⟩
  have hv : (((Verifier.init ⟨p, g⟩ ((Prover.init ⟨p, g⟩ x).y)).challenge c).1).verify
      (((Prover.init ⟨p, g⟩ x).commit r).2) ((r + c * x) % (p - 1)) =
      Except.ok ((((Verifier.init ⟨p, g⟩ ((Prover.init ⟨p, g⟩ x).y)).challenge c).1),
        (g ^ ((r + c * x) % (p - 1)) % p == ((g ^ r % p) * ((g ^ x % p) ^ c % p)) % p)) := rfl
  rw [hv, schnorr_verify_equation p g x r c hp hg, beq_self_eq_true]

/-- Witness for C1 at the toy parameters `p = 23`, `g = 5`, `x = 6`, `r = 3`,
`c = 7`. -/
theorem C1_witness :
    ∃ s : Nat,
      (((Prover.init ⟨23, 5⟩ 6).commit 3).1).respond 7 =
        Except.ok (((Prover.init ⟨23, 5⟩ 6).commit 3).1, s) ∧
      (((Verifier.init ⟨23, 5⟩ ((Prover.init ⟨23, 5⟩ 6).y)).challenge 7).1).verify
          (((Prover.init ⟨23, 5⟩ 6).commit 3).2) s =
        Except.ok ((((Verifier.init ⟨23, 5⟩ ((Prover.init ⟨23, 5⟩ 6).y)).challenge 7).1),
          true) :=
  C1_interactive_completeness 23 5 6 3 7 (by decide) (by decide) (by decide)
    (by decide) (by decide) (by decide) (by decide)

/-- C2: signature round-trip. For every prime modulus `p ≥ 3` with generator
`g` (in particular `p` does not divide `g`), every secret key `x` with public
key `y = g ^ x mod p`, every message `m`, every hash derivation `H`, and
every nonce `k` in `[1, p-2]` drawn inside signing, `verify_signature`
accepts the signature produced by `schnorr_signature`. -/
theorem C2_signature_roundtrip (p g x k : Nat) (H : Nat → String → Nat) (m : String)
    (hp : p.Prime) (hp3 : 3 ≤ p) (hg : ¬ p ∣ g) (hk1 : 1 ≤ k) (hk2 : k ≤ p - 2) :
    verify_signature H m (schnorr_signature H m x ⟨p, g⟩ k) (g ^ x % p) ⟨p, g⟩ = true := by
  haveI : Fact p.Prime := ⟨hp⟩
  have hG : (g : ZMod p) ≠ 0 := by
    rw [Ne, ZMod.natCast_zmod_eq_zero_iff_dvd]
    exact hg
  have hp1 : 0 < p - 1 := by omega
  have hv : verify_signature H m (schnorr_signature H m x ⟨p, g⟩ k) (g ^ x % p) ⟨p, g⟩ =
      ((H (g ^ k % p) m % (p - 1)) ==
        H (((g ^ ((k + (H (g ^ k % p) m % (p - 1)) * x) % (p - 1)) % p) *
            ((g ^ x % p) ^ (p - 1 - (H (g ^ k % p) m % (p - 1))) % p)) % p) m % (p - 1)) := rfl
  rw [hv]
  generalize hE : H (g ^ k % p) m % (p - 1) = e
  have he2 : e < p - 1 := by
    rw [← hE]
    exact Nat.mod_lt _ hp1
  have hd : (p - 1 - e) + e = p - 1 := Nat.sub_add_cancel (le_of_lt he2)
  have hrec : ((g ^ ((k + e * x) % (p - 1)) % p) * ((g ^ x % p) ^ (p - 1 - e) % p)) % p
      = g ^ k % p := by
    rw [← ZMod.natCast_eq_natCast_iff']
    push_cast [ZMod.natCast_mod]
    rw [schnorr_zmod_pow_reduce hp _ hG, ← pow_mul, ← pow_add]
    have hexp : k + e * x + x * (p - 1 - e) = k + (p - 1) * x := by
      conv_rhs => rw [← hd]
      ring
    rw [hexp, pow_add, pow_mul, ZMod.pow_card_sub_one_eq_one hG, one_pow, mul_one]
  rw [hrec, hE, beq_self_eq_true]

/-- Witness for C2 at `p = 23`, `g = 5`, `x = 6`, `k = 3`, with a concrete
hash stand-in. -/
theorem C2_witness :
    verify_signature (fun a _ => a) "msg"
      (schnorr_signature (fun a _ => a) "msg" 6 ⟨23, 5⟩ 3) (5 ^ 6 % 23) ⟨23, 5⟩ = true :=
  C2_signature_roundtrip 23 5 6 3 (fun a _ => a) "msg" (by decide) (by decide)
    (by decide) (by decide) (by decide)

/-- C3: the concrete numeric chain in the toy group `p = 23`, `g = 5` with
secret `x = 6`: public key `8`, commitment `10` for nonce `3`, response `1`
for challenge `7`, both verification sides equal to `5`, proof accepted. -/
theorem C3_concrete_chain :
    (Prover.init ⟨23, 5⟩ 6).y = 8 ∧
    ((Prover.init ⟨23, 5⟩ 6).commit 3).2 = 10 ∧
    (((Prover.init ⟨23, 5⟩ 6).commit 3).1).respond 7 =
      Except.ok (((Prover.init ⟨23, 5⟩ 6).commit 3).1, 1) ∧
    5 ^ 1 % 23 = 5 ∧
    (10 * (8 ^ 7 % 23)) % 23 = 5 ∧
    (((Verifier.init ⟨23, 5⟩ 8).challenge 7).1).verify 10 1 =
      Except.ok (((Verifier.init ⟨23, 5⟩ 8).challenge 7).1, true) :=
  ⟨rfl, rfl, rfl, rfl, rfl, rfl⟩

/-- C4: knowledge extraction. Two responses of the same committed prover
state (same stored nonce `r`) to distinct challenges `c1 ≠ c2`, where
`c1 - c2` has an inverse `u` modulo `p - 1`, reconstruct the secret:
`(s1 - s2) * u = x` in `ZMod (p - 1)`. -/
theorem C4_extraction (p g x y r c1 c2 s1 s2 : Nat) (pr1 pr2 : Prover)
    (u : ZMod (p - 1))
    (h1 : (Prover.mk ⟨p, g⟩ x y (some r)).respond c1 = Except.ok (pr1, s1))
    (h2 : (Prover.mk ⟨p, g⟩ x y (some r)).respond c2 = Except.ok (pr2, s2))
    (hc : c1 ≠ c2)
    (hu : ((c1 : ZMod (p - 1)) - (c2 : ZMod (p - 1))) * u = 1) :
    ((s1 : ZMod (p - 1)) - (s2 : ZMod (p - 1))) * u = (x : ZMod (p - 1)) := by
  simp only [Prover.respond, Except.ok.injEq, Prod.mk.injEq] at h1 h2
  obtain ⟨-, hs1⟩ := h1
  obtain ⟨-, hs2⟩ := h2
  subst hs1
  subst hs2
  rw [ZMod.natCast_mod, ZMod.natCast_mod]
  push_cast
  linear_combination (x : ZMod (p - 1)) * hu

/-- Witness for C4 at `p = 23`, `r = 3`, `x = 6`, challenges `7` and `2`
with inverse `9` of `5` modulo `22`: responses `1` and `15` give back `6`. -/
theorem C4_witness :
    (((1 : Nat) : ZMod (23 - 1)) - ((15 : Nat) : ZMod (23 - 1))) * 9 =
      ((6 : Nat) : ZMod (23 - 1)) :=
  C4_extraction 23 5 6 8 3 7 2 1 15 (Prover.mk ⟨23, 5⟩ 6 8 (some 3))
    (Prover.mk ⟨23, 5⟩ 6 8 (some 3)) 9 (by rfl) (by rfl) (by decide) (by decide)

/-- C5 counterexample: on a fresh prover (no `commit` yet), `respond` fails
with Python's `TypeError` from `None + int`, which is not the
`ProtocolStateError` the claim names. -/
theorem C5_counterexample :
    (Prover.init ⟨23, 5⟩ 6).respond 7 = Except.error PyError.typeError ∧
    PyError.typeError ≠ PyError.protocolStateError :=
  ⟨rfl, fun h => PyError.noConfusion h⟩

/-- C5 amended: calling `Prover.respond` before any call to `Prover.commit`
fails for every challenge, but with an uncaught `TypeError` (the nonce field
is still `None`), not with a `ProtocolStateError`. -/
theorem C5_amended (protocol : SchnorrProtocol) (x c : Nat) :
    (Prover.init protocol x).respond c = Except.error PyError.typeError := rfl

/-- C6 counterexample: modulus `4` is not an odd integer `≥ 3` and generator
`0` lies outside `[2, modulus - 2]`, yet the constructor succeeds and returns
a usable object instead of failing with `InvalidParameter`. -/
theorem C6_counterexample :
    SchnorrProtocol.init 4 0 = Except.ok ⟨4, 0⟩ ∧ ¬ (4 % 2 = 1) ∧ ¬ (2 ≤ 0) :=
  ⟨rfl, by decide, by decide⟩

/-- C6 amended: the constructor performs no validation at all — for every
modulus and generator, malformed or not, it succeeds and returns the object
storing exactly the given values. -/
theorem C6_amended (p g : Nat) : SchnorrProtocol.init p g = Except.ok ⟨p, g⟩ := rfl

/-- C7: determinism of verification. A successful `Verifier.verify` call
leaves the verifier state unchanged, so an immediately repeated call with the
same arguments returns exactly the same result; `verify_signature` takes no
state and is a fixed function of its arguments. -/
theorem C7_verify_deterministic (v : Verifier) (t s : Nat) (v' : Verifier) (b : Bool)
    (h : v.verify t s = Except.ok (v', b)) (H : Nat → String → Nat) (m : String)
    (sig : Nat × Nat) (y : Nat) (protocol : SchnorrProtocol) :
    v' = v ∧ v'.verify t s = Except.ok (v', b) ∧
      verify_signature H m sig y protocol = verify_signature H m sig y protocol := by
  cases hc : v.c with
  | none =>
    simp only [Verifier.verify, hc] at h
    exact Except.noConfusion h
  | some c =>
    simp only [Verifier.verify, hc, Except.ok.injEq, Prod.mk.injEq] at h
    obtain ⟨h1, h2⟩ := h
    subst h1
    subst h2
    refine ⟨rfl, ?_, rfl⟩
    simp only [Verifier.verify, hc]

/-- Witness for C7 on the toy verifier with stored challenge `7`. -/
theorem C7_witness :
    ((Verifier.init ⟨23, 5⟩ 8).challenge 7).1 = ((Verifier.init ⟨23, 5⟩ 8).challenge 7).1 ∧
    (((Verifier.init ⟨23, 5⟩ 8).challenge 7).1).verify 10 1 =
      Except.ok (((Verifier.init ⟨23, 5⟩ 8).challenge 7).1, true) ∧
    verify_signature (fun a _ => a) "m" (1, 2) 8 ⟨23, 5⟩ =
      verify_signature (fun a _ => a) "m" (1, 2) 8 ⟨23, 5⟩ :=
  C7_verify_deterministic ((Verifier.init ⟨23, 5⟩ 8).challenge 7).1 10 1
    ((Verifier.init ⟨23, 5⟩ 8).challenge 7).1 true rfl (fun a _ => a) "m" (1, 2) 8 ⟨23, 5⟩

/-- C8: `Verifier.verify` takes no challenge argument. After a `challenge`
call stored `rnd`, `verify t s` returns the boolean of
`g ^ s mod p == (t * y ^ rnd mod p) mod p` (so it returns `True` iff that
equation holds), and on a verifier whose stored challenge is still `None` it
raises a runtime `TypeError` instead of returning a boolean. -/
theorem C8_challenge_dependency (v : Verifier) (rnd t s : Nat) :
    (v.c = none → v.verify t s = Except.error PyError.typeError) ∧
    ((v.challenge rnd).1).verify t s =
      Except.ok ((v.challenge rnd).1,
        v.protocol.g ^ s % v.protocol.p == (t * (v.y ^ rnd % v.protocol.p)) % v.protocol.p) ∧
    (((v.challenge rnd).1).verify t s = Except.ok ((v.challenge rnd).1, true) ↔
      v.protocol.g ^ s % v.protocol.p = (t * (v.y ^ rnd % v.protocol.p)) % v.protocol.p) := by
  have hv : ((v.challenge rnd).1).verify t s =
      Except.ok ((v.challenge rnd).1,
        v.protocol.g ^ s % v.protocol.p ==
          (t * (v.y ^ rnd % v.protocol.p)) % v.protocol.p) := rfl
  refine ⟨fun h => ?_, hv, ?_⟩
  · simp only [Verifier.verify, h]
  · rw [hv]
    simp

/-- Witness for C8: a fresh verifier raises, and after `challenge 7` the toy
transcript is accepted. -/
theorem C8_witness :
    (Verifier.init ⟨23, 5⟩ 8).verify 10 1 = Except.error PyError.typeError ∧
    (((Verifier.init ⟨23, 5⟩ 8).challenge 7).1).verify 10 1 =
      Except.ok (((Verifier.init ⟨23, 5⟩ 8).challenge 7).1, true) :=
  ⟨(C8_challenge_dependency (Verifier.init ⟨23, 5⟩ 8) 7 10 1).1 rfl,
   ((C8_challenge_dependency (Verifier.init ⟨23, 5⟩ 8) 7 10 1).2.2).mpr rfl⟩

/-- C9: range invariant of signatures. For every modulus `p ≥ 3`, both
components `(s, e)` of `schnorr_signature` lie in `[0, p - 2]`, and the
exponent `p - 1 - e` computed inside `verify_signature` lies in `[1, p - 1]`
(in particular it is never negative). -/
theorem C9_signature_range (p g x k : Nat) (H : Nat → String → Nat) (m : String)
    (hp3 : 3 ≤ p) :
    (schnorr_signature H m x ⟨p, g⟩ k).1 ≤ p - 2 ∧
    (schnorr_signature H m x ⟨p, g⟩ k).2 ≤ p - 2 ∧
    1 ≤ p - 1 - (schnorr_signature H m x ⟨p, g⟩ k).2 ∧
    p - 1 - (schnorr_signature H m x ⟨p, g⟩ k).2 ≤ p - 1 := by
  refine ⟨?_, ?_, ?_, Nat.sub_le _ _⟩
  · exact schnorr_mod_le_sub_two p (k + (H (g ^ k % p) m % (p - 1)) * x) hp3
  · exact schnorr_mod_le_sub_two p (H (g ^ k % p) m) hp3
  · show 1 ≤ p - 1 - (H (g ^ k % p) m % (p - 1))
    have h := schnorr_mod_le_sub_two p (H (g ^ k % p) m) hp3
    generalize H (g ^ k % p) m % (p - 1) = b at h ⊢
    omega

/-- Witness for C9 at the toy parameters with a concrete hash stand-in. -/
theorem C9_witness :
    (schnorr_signature (fun a _ => a) "msg" 6 ⟨23, 5⟩ 3).1 ≤ 23 - 2 ∧
    (schnorr_signature (fun a _ => a) "msg" 6 ⟨23, 5⟩ 3).2 ≤ 23 - 2 ∧
    1 ≤ 23 - 1 - (schnorr_signature (fun a _ => a) "msg" 6 ⟨23, 5⟩ 3).2 ∧
    23 - 1 - (schnorr_signature (fun a _ => a) "msg" 6 ⟨23, 5⟩ 3).2 ≤ 23 - 1 :=
  C9_signature_range 23 5 6 3 (fun a _ => a) "msg" (by decide)

/-- C10: frame property of `Prover.respond`. After one `commit` storing the
nonce, the stored nonce survives `respond`: the post-state of `respond`
equals its pre-state, and two successive responses to distinct challenges
`c1 ≠ c2` are both computed from that same stored nonce. -/
theorem C10_respond_frame (pr : Prover) (rnd c1 c2 : Nat) (hne : c1 ≠ c2) :
    ((pr.commit rnd).1).r = some rnd ∧
    ((pr.commit rnd).1).respond c1 =
      Except.ok ((pr.commit rnd).1, (rnd + c1 * pr.x) % (pr.protocol.p - 1)) ∧
    ((pr.commit rnd).1).respond c2 =
      Except.ok ((pr.commit rnd).1, (rnd + c2 * pr.x) % (pr.protocol.p - 1)) :=
  ⟨rfl, rfl, rfl⟩

/-- Witness for C10 on the toy prover with nonce `3` and challenges `7`, `2`. -/
theorem C10_witness :
    (((Prover.init ⟨23, 5⟩ 6).commit 3).1).r = some 3 ∧
    (((Prover.init ⟨23, 5⟩ 6).commit 3).1).respond 7 =
      Except.ok (((Prover.init ⟨23, 5⟩ 6).commit 3).1,
        (3 + 7 * (Prover.init ⟨23, 5⟩ 6).x) % ((Prover.init ⟨23, 5⟩ 6).protocol.p - 1)) ∧
    (((Prover.init ⟨23, 5⟩ 6).commit 3).1).respond 2 =
      Except.ok (((Prover.init ⟨23, 5⟩ 6).commit 3).1,
        (3 + 2 * (Prover.init ⟨23, 5⟩ 6).x) % ((Prover.init ⟨23, 5⟩ 6).protocol.p - 1)) :=
  C10_respond_frame (Prover.init ⟨23, 5⟩ 6) 3 7 2 (by decide)
